import Mathlib

/-!
Verification of the ALM-adapters subsystem (services/alm-adapters) of the
Helthcare-Test-AP repository.

The Python sources are shallowly embedded: Python dicts become association
lists (`RMap`), Python values become the inductive `Value`, raised exceptions
become `Except PyExc`, and the remote ALM backends (the `jira` client, the
Azure DevOps work-item-tracking client, the Polarion SOAP endpoint) become
records of oracle functions.  Each embedded operation additionally returns the
list of remote calls it issued, so that claims about "no update call" or
"exactly one create call" are statements about that trace.
-/

/-- Embedding of Python runtime values as they occur in the adapter code:
strings, ints, bools, `None`, lists and dicts. -/
inductive Value where
  | str : String → Value
  | int : Int → Value
  | bool : Bool → Value
  | none : Value
  | list : List Value → Value
  | dict : List (String × Value) → Value

mutual

/-- Embedding of Python `==` on the embedded values: structural on strings,
numeric across `bool`/`int` (CPython treats `True == 1`), elementwise on
lists, and pairwise on dicts.  Dicts are compared in binding order; the
adapter code only ever compares dicts built with one canonical key order, so
this agrees with CPython order-insensitive dict equality on every comparison
the code performs. -/
def Value.beq : Value → Value → Bool
  | .str a, .str b => a == b
  | .int a, .int b => a == b
  | .bool a, .bool b => a == b
  | .bool a, .int b => (if a then (1 : Int) else 0) == b
  | .int a, .bool b => a == (if b then (1 : Int) else 0)
  | .none, .none => true
  | .list a, .list b => Value.beqList a b
  | .dict a, .dict b => Value.beqPairs a b
  | _, _ => false

/-- Elementwise Python `==` on lists of values. -/
def Value.beqList : List Value → List Value → Bool
  | [], [] => true
  | x :: xs, y :: ys => Value.beq x y && Value.beqList xs ys
  | _, _ => false

/-- Pairwise Python `==` on dict bindings. -/
def Value.beqPairs : List (String × Value) → List (String × Value) → Bool
  | [], [] => true
  | (k1, v1) :: xs, (k2, v2) :: ys =>
      k1 == k2 && Value.beq v1 v2 && Value.beqPairs xs ys
  | _, _ => false

end

/-- Embedding of a Python dict with string keys (insertion ordered, as in
CPython): an association list without duplicate keys by construction. -/
abbrev RMap := List (String × Value)

namespace RMap

/-- Python `d.get(k)` / `k in d`: the first binding of `k`, if any. -/
def get? (m : RMap) (k : String) : Option Value :=
  match m.find? (fun p => p.1 == k) with
  | some p => some p.2
  | none => Option.none

/-- Python `d.get(k, default)`. -/
def getD (m : RMap) (k : String) (d : Value) : Value :=
  (m.get? k).getD d

/-- Python `d[k] = v`: replace the binding in place if `k` is present
(CPython keeps the original position), otherwise append it. -/
def insert (m : RMap) (k : String) (v : Value) : RMap :=
  match m with
  | [] => [(k, v)]
  | (k', v') :: rest =>
      if k' = k then (k, v) :: rest else (k', v') :: insert rest k v

/-- Python `list(d.keys())`. -/
def keys (m : RMap) : List String := m.map Prod.fst

end RMap

/-- Python truthiness (`if x:`) for the embedded values. -/
def Value.truthy : Value → Bool
  | .str s => s != ""
  | .int n => n != 0
  | .bool b => b
  | .none => false
  | .list l => !l.isEmpty
  | .dict d => !d.isEmpty

/-- Embedding of the Python exceptions that the adapter code distinguishes:
`JIRAError` and `ClientException` are the backend-library exception classes
named in `except` clauses; `TypeError`, `ValueError` and `KeyError` are
builtin exceptions; `other` covers any remaining `Exception`.  The payload is
`str(e)`. -/
inductive PyExc where
  | jiraError : String → PyExc
  | clientException : String → PyExc
  | typeError : String → PyExc
  | valueError : String → PyExc
  | keyError : String → PyExc
  | other : String → PyExc
deriving Repr, DecidableEq

/-- Python `str(e)` on an embedded exception. -/
def PyExc.msg : PyExc → String
  | .jiraError s => s
  | .clientException s => s
  | .typeError s => s
  | .valueError s => s
  | .keyError s => s
  | .other s => s

/-- Embedding of a Python object as far as `get_available_adapters` observes
it: either a plain dict, or a coroutine object (the result of calling an
`async def` without awaiting it) wrapping the dict the coroutine would
produce. -/
inductive PyObj where
  | dict : RMap → PyObj
  | coro : PyObj → PyObj

/-- Embedding of Python subscription `obj[k]`: defined on dicts (raising
`KeyError` on a missing key) and raising `TypeError` on a coroutine object,
exactly as CPython does for `coroutine_obj["name"]`. -/
def pySubscript : PyObj → String → Except PyExc Value
  | .dict m, k =>
      match m.get? k with
      | some v => .ok v
      | Option.none => .error (.keyError k)
  | .coro _, _ => .error (.typeError "coroutine object is not subscriptable")

/-- Embedding of a value of the `target_field` position in a `field_mapping`
dict as consumed by `BaseALMAdapter.map_fields`: either a flat string target,
or a nested dict with an optional `field` entry and an optional callable
`transform` entry (a missing `field` key skips the entry; a `transform` entry
that is absent or not callable is not applied).  A transform is a Python
callable and may raise. -/
inductive FieldTarget where
  | flat : String → FieldTarget
  | nested : Option String → Option (Value → Except PyExc Value) → FieldTarget

/-- Embedding of a `field_mapping` argument of `map_fields`. -/
abbrev FieldMapping := List (String × FieldTarget)

/-- Embedding of the `for source_field, target_field in field_mapping.items()`
loop body of `BaseALMAdapter.map_fields` (base_adapter.py, lines 133-150),
threading the `mapped_data` accumulator; a raising transform propagates out of
the loop as the exception. -/
def mapFieldsGo (source_data : RMap) : FieldMapping → RMap → Except PyExc RMap
  | [], acc => .ok acc
  | (source_field, target) :: rest, acc =>
      match source_data.get? source_field with
      | Option.none => mapFieldsGo source_data rest acc
      | some value =>
          match target with
          | .flat tf => mapFieldsGo source_data rest (acc.insert tf value)
          | .nested Option.none _ => mapFieldsGo source_data rest acc
          | .nested (some mf) Option.none =>
              mapFieldsGo source_data rest (acc.insert mf value)
          | .nested (some mf) (some transform) =>
              match transform value with
              | .error e => .error e
              | .ok value2 => mapFieldsGo source_data rest (acc.insert mf value2)

/-- Embedding of `BaseALMAdapter.map_fields` (base_adapter.py, lines 128-156):
the loop runs inside a `try` whose `except Exception` handler returns `{}`, so
a raising transform yields the empty dict and no exception ever escapes. -/
def map_fields (source_data : RMap) (field_mapping : FieldMapping) : RMap :=
  match mapFieldsGo source_data field_mapping [] with
  | .ok mapped_data => mapped_data
  | .error _ => []

/-- Embedding of the `fields` attribute object of a fetched Jira issue:
`summary` and `description` are always-present attributes, and any other
field is read with `getattr(issue.fields, name, None)`. -/
structure IssueFields where
  summary : Value
  description : Value
  extra : RMap := []

/-- Embedding of `getattr(issue.fields, name, None)`
(jira_adapter.py, line 254). -/
def IssueFields.fieldAttr (f : IssueFields) (name : String) : Value :=
  if name == "summary" then f.summary
  else if name == "description" then f.description
  else f.extra.getD name Value.none

/-- Embedding of the object returned by `jira_client.create_issue`: the new
issue's `key` and `id`. -/
structure CreatedIssue where
  key : String
  id : String

/-- Remote Jira calls issued by the embedded adapter code, in order. -/
inductive JiraCall where
  | fetchProject : Value → JiraCall
  | fetchIssue : Value → JiraCall
  | createIssue : RMap → JiraCall
  | updateIssue : Value → RMap → JiraCall

/-- Oracle for the remote Jira backend: one function per `jira_client` method
the adapter invokes, each returning either a result or a raised exception.
`hasClient` embeds the `if not self.jira_client` guard. -/
structure JiraBackend where
  hasClient : Bool := true
  project : Value → Except PyExc Unit
  issue : Value → Except PyExc IssueFields
  createIssue : RMap → Except PyExc CreatedIssue
  updateIssue : Value → RMap → Except PyExc Unit

/-- Embedding of Python slicing `x[:100]` as applied to the `text` attribute
(jira_adapter.py, line 198): defined on strings and lists, a `TypeError` on
anything else. -/
def pySlice100 : Value → Except PyExc Value
  | .str s => .ok (.str (s.take 100))
  | .list l => .ok (.list (l.take 100))
  | _ => .error (.typeError "object is not subscriptable")

/-- Embedding of `requirement.get("title", requirement.get("text", "")[:100])`
(jira_adapter.py, lines 198 and 241): CPython evaluates the sliced default
eagerly, so the slice runs (and can raise) even when `title` is present. -/
def jiraNewSummary (requirement : RMap) : Except PyExc Value := do
  let d ← pySlice100 (requirement.getD "text" (.str ""))
  pure (requirement.getD "title" d)

/-- Embedding of the per-requirement result dicts produced by
`_create_jira_issue` / `_update_jira_issue` / `_sync_requirement_to_issue`,
with `Option`/default fields standing for absent dict keys. -/
structure ItemResult where
  success : Bool
  created : Bool := false
  error : Option String := Option.none
  issue_key : Option Value := Option.none
  issue_id : Option String := Option.none
  updated_fields : Option (List String) := Option.none

/-- Embedding of the `except JIRAError` handlers of `_create_jira_issue` and
`_update_jira_issue` (jira_adapter.py, lines 225-227 and 278-280): a
`JIRAError` becomes `{"success": False, "error": str(e)}`, every other
exception keeps propagating. -/
def jiraCatch (r : List JiraCall × Except PyExc ItemResult) :
    List JiraCall × Except PyExc ItemResult :=
  match r with
  | (t, .error (.jiraError m)) => (t, .ok { success := false, error := some m })
  | other => other

/-- Embedding of the `issue_data` payload built by `_create_jira_issue`
(jira_adapter.py, lines 196-207): the four base fields, then one entry per
`field_mapping` item whose requirement attribute is present. -/
def jiraCreateIssueData (project_key : Value) (requirement : RMap)
    (issue_type : Value) (field_mapping : List (String × String)) :
    Except PyExc RMap := do
  let summary ← jiraNewSummary requirement
  let base : RMap :=
    [("project", Value.dict [("key", project_key)]),
     ("summary", summary),
     ("description", requirement.getD "text" (.str "")),
     ("issuetype", Value.dict [("name", issue_type)])]
  pure (field_mapping.foldl
    (fun acc p =>
      match requirement.get? p.1 with
      | some v => acc.insert p.2 v
      | Option.none => acc)
    base)

/-- Embedding of the `sync_config` dict as read by the Jira sync path:
`jira_project_key`, `issue_type` (default `"Story"`), `field_mapping`
(default `{}`) and `requirements` (default `[]`). -/
structure JiraSyncConfig where
  jira_project_key : Value := Value.none
  issue_type : Value := Value.str "Story"
  field_mapping : List (String × String) := []
  requirements : List RMap := []

/-- Embedding of `_create_jira_issue` (jira_adapter.py, lines 190-227),
returning the remote calls issued alongside the result. -/
def createJiraIssue (be : JiraBackend) (project_key : Value)
    (requirement : RMap) (cfg : JiraSyncConfig) :
    List JiraCall × Except PyExc ItemResult :=
  jiraCatch <|
    match jiraCreateIssueData project_key requirement cfg.issue_type cfg.field_mapping with
    | .error e => ([], .error e)
    | .ok issue_data =>
        match be.createIssue issue_data with
        | .error e => ([.createIssue issue_data], .error e)
        | .ok new_issue =>
            ([.createIssue issue_data],
             .ok { success := true, created := true,
                   issue_key := some (.str new_issue.key),
                   issue_id := some new_issue.id })

/-- Embedding of the `update_data` diff computed by `_update_jira_issue`
(jira_adapter.py, lines 238-258): summary and description when changed, then
each mapped field whose post-fetch current value differs from the
requirement's value. -/
def jiraUpdateData (issue : IssueFields) (new_summary : Value)
    (requirement : RMap) (field_mapping : List (String × String)) : RMap :=
  let u1 : RMap :=
    if Value.beq issue.summary new_summary then [] else [("summary", new_summary)]
  let new_description := requirement.getD "text" (.str "")
  let u2 :=
    if Value.beq issue.description new_description then u1
    else u1.insert "description" new_description
  field_mapping.foldl
    (fun acc p =>
      match requirement.get? p.1 with
      | some new_value =>
          if Value.beq (issue.fieldAttr p.2) new_value then acc
          else acc.insert p.2 new_value
      | Option.none => acc)
    u2

/-- Embedding of `_update_jira_issue` (jira_adapter.py, lines 229-280): fetch
the issue, compute the changed-field diff, call `issue.update` only when the
diff is non-empty, and return a success dict with `created: False` either
way. -/
def updateJiraIssue (be : JiraBackend) (issue_key : Value)
    (requirement : RMap) (cfg : JiraSyncConfig) :
    List JiraCall × Except PyExc ItemResult :=
  jiraCatch <|
    match be.issue issue_key with
    | .error e => ([.fetchIssue issue_key], .error e)
    | .ok issue =>
        match jiraNewSummary requirement with
        | .error e => ([.fetchIssue issue_key], .error e)
        | .ok new_summary =>
            let update_data := jiraUpdateData issue new_summary requirement cfg.field_mapping
            if update_data.isEmpty then
              ([.fetchIssue issue_key],
               .ok { success := true, created := false,
                     issue_key := some issue_key,
                     updated_fields := some update_data.keys })
            else
              match be.updateIssue issue_key update_data with
              | .error e =>
                  ([.fetchIssue issue_key, .updateIssue issue_key update_data], .error e)
              | .ok _ =>
                  ([.fetchIssue issue_key, .updateIssue issue_key update_data],
                   .ok { success := true, created := false,
                         issue_key := some issue_key,
                         updated_fields := some update_data.keys })

/-- Embedding of `_sync_requirement_to_issue` (jira_adapter.py, lines
171-188): dispatch on the truthiness of the stored `jira_issue_key`, with the
`except Exception` handler converting any propagating exception into a
`{"success": False, "error": str(e)}` dict. -/
def syncRequirementToIssue (be : JiraBackend) (requirement : RMap)
    (project_key : Value) (cfg : JiraSyncConfig) : List JiraCall × ItemResult :=
  let jira_issue_key := requirement.getD "jira_issue_key" Value.none
  let r :=
    if jira_issue_key.truthy then
      updateJiraIssue be jira_issue_key requirement cfg
    else
      createJiraIssue be project_key requirement cfg
  match r with
  | (t, .ok res) => (t, res)
  | (t, .error e) => (t, { success := false, error := some e.msg })

/-- Embedding of one entry of the `sync_results["errors"]` list
(jira_adapter.py, lines 154-157): the failing requirement's `req_id` and the
error message. -/
structure SyncError where
  req_id : Value
  error : Option String

/-- Embedding of the `sync_results` accumulator dict
(jira_adapter.py, lines 131-136). -/
structure SyncCounts where
  synced_items : Nat := 0
  created_items : Nat := 0
  updated_items : Nat := 0
  errors : List SyncError := []

/-- Embedding of the `for requirement in requirements` loop of
`JiraAdapter.sync_project` (jira_adapter.py, lines 141-163), written as
structural recursion on the requirement list: the counters are commutative
sums and the error list is produced in encounter order, so this recursion is
observationally identical to the Python left-to-right loop. -/
def jiraSyncGo (be : JiraBackend) (project_key : Value) (cfg : JiraSyncConfig) :
    List RMap → List JiraCall × SyncCounts
  | [] => ([], {})
  | requirement :: rest =>
      let (t, res) := syncRequirementToIssue be requirement project_key cfg
      let (tr, c) := jiraSyncGo be project_key cfg rest
      (t ++ tr,
       if res.success then
         { c with
           synced_items := c.synced_items + 1,
           created_items := if res.created then c.created_items + 1 else c.created_items,
           updated_items := if res.created then c.updated_items else c.updated_items + 1 }
       else
         { c with
           errors := { req_id := requirement.getD "req_id" Value.none,
                       error := res.error } :: c.errors })

/-- Embedding of the envelope returned by `JiraAdapter.sync_project`: the
`format_success_response` / `format_error_response` dict of base_adapter.py
merged with the `sync_results` counters. -/
structure SyncEnvelope where
  success : Bool
  adapter : String := "JiraAdapter"
  error : Option String := Option.none
  synced_items : Nat := 0
  created_items : Nat := 0
  updated_items : Nat := 0
  errors : List SyncError := []

/-- Error envelope built by `format_error_response` in the sync path. -/
def jiraErrEnvelope (e : String) : SyncEnvelope :=
  { success := false, error := some e }

/-- Embedding of `JiraAdapter.sync_project` (jira_adapter.py, lines 114-169):
client guard, project-key guard, project fetch (a `JIRAError` gives the
"project not found" envelope, any other exception falls to the outer handler),
then the per-requirement loop, and finally a success envelope carrying the
counters. -/
def jira_sync_project (be : JiraBackend) (project_id : String)
    (cfg : JiraSyncConfig) : List JiraCall × SyncEnvelope :=
  if !be.hasClient then ([], jiraErrEnvelope "Jira client not initialized")
  else
    let jira_project_key := cfg.jira_project_key
    if !jira_project_key.truthy then
      ([], jiraErrEnvelope "Jira project key not specified in sync config")
    else
      match be.project jira_project_key with
      | .error (.jiraError m) =>
          ([.fetchProject jira_project_key],
           jiraErrEnvelope ("Jira project not found: " ++ m))
      | .error e =>
          ([.fetchProject jira_project_key],
           jiraErrEnvelope ("Project sync failed: " ++ e.msg))
      | .ok _ =>
          let (t, c) := jiraSyncGo be jira_project_key cfg cfg.requirements
          (.fetchProject jira_project_key :: t,
           { success := true,
             synced_items := c.synced_items,
             created_items := c.created_items,
             updated_items := c.updated_items,
             errors := c.errors })

/-- Embedding of the envelope returned by the single-item contract operations
(`format_success_response` / `format_error_response` plus the
operation-specific keys), with `Option` fields standing for absent dict
keys. -/
structure OpResult where
  success : Bool
  adapter : Option String := Option.none
  error : Option String := Option.none
  item_id : Option Value := Option.none
  updated_fields : Option Value := Option.none

/-- Embedding of the `project_config` dict consumed by the single-item
operations: the `field_mapping` here is the `map_fields`-style mapping with
optional transforms. -/
structure ProjectConfig where
  field_mapping : FieldMapping := []

/-- Embedding of `JiraAdapter.update_item` (jira_adapter.py, lines 316-339):
fetch the issue, run `map_fields`, call `issue.update` with the mapped dict.
Only `JIRAError` is caught (becoming an error envelope); any other exception
— e.g. a non-Jira network error — propagates across the contract boundary. -/
def jira_update_item (be : JiraBackend) (item_id : Value) (item_data : RMap)
    (project_config : ProjectConfig) : List JiraCall × Except PyExc OpResult :=
  if !be.hasClient then
    ([], .ok { success := false, adapter := some "JiraAdapter",
               error := some "Jira client not initialized" })
  else
    let r : List JiraCall × Except PyExc OpResult :=
      match be.issue item_id with
      | .error e => ([.fetchIssue item_id], .error e)
      | .ok _issue =>
          let mapped_data := map_fields item_data project_config.field_mapping
          match be.updateIssue item_id mapped_data with
          | .error e => ([.fetchIssue item_id, .updateIssue item_id mapped_data], .error e)
          | .ok _ =>
              ([.fetchIssue item_id, .updateIssue item_id mapped_data],
               .ok { success := true, adapter := some "JiraAdapter",
                     item_id := some item_id,
                     updated_fields := some (.list (mapped_data.keys.map Value.str)) })
    match r with
    | (t, .error (.jiraError m)) =>
        (t, .ok { success := false, adapter := some "JiraAdapter",
                  error := some ("Failed to update item: " ++ m) })
    | other => other

/-- Embedding of an `azure.devops` `JsonPatchOperation`. -/
structure PatchOp where
  op : String
  path : String
  value : Value

/-- Remote Azure DevOps calls issued by the embedded `update_item`. -/
inductive AdoCall where
  | updateWorkItem : Int → List PatchOp → AdoCall

/-- Oracle for the Azure DevOps work-item-tracking client as used by
`update_item`. -/
structure AdoBackend where
  hasClient : Bool := true
  updateWorkItem : Int → List PatchOp → Except PyExc Unit

/-- Embedding of Python `int(s)` on a string: optional surrounding
whitespace, an optional sign, then decimal digits; anything else raises
`ValueError` (underscore separators are not modelled; no caller uses
them). -/
def pyInt (s : String) : Except PyExc Int :=
  let t := ((s.toList.dropWhile Char.isWhitespace).reverse.dropWhile
    Char.isWhitespace).reverse
  let sd : Int × List Char :=
    match t with
    | '-' :: rest => (-1, rest)
    | '+' :: rest => (1, rest)
    | _ => (1, t)
  if !sd.2.isEmpty && sd.2.all Char.isDigit then
    .ok (sd.1 * ((sd.2.foldl (fun a c => a * 10 + (c.toNat - 48)) 0 : Nat) : Int))
  else
    .error (.valueError ("invalid literal for int with base 10: " ++ s))

/-- Embedding of `AzureDevOpsAdapter.update_item` (azure_devops_adapter.py,
lines 357-389): run `map_fields`, build `replace` patch operations, then call
`update_work_item(document=patch_ops, id=int(item_id))`.  Only
`ClientException` is caught; in particular the `ValueError` raised by
`int(item_id)` on a non-numeric id propagates across the contract
boundary. -/
def azure_update_item (be : AdoBackend) (item_id : String) (item_data : RMap)
    (project_config : ProjectConfig) : List AdoCall × Except PyExc OpResult :=
  if !be.hasClient then
    ([], .ok { success := false, adapter := some "AzureDevOpsAdapter",
               error := some "Azure DevOps client not initialized" })
  else
    let mapped_data := map_fields item_data project_config.field_mapping
    let patch_ops := mapped_data.map
      (fun p => { op := "replace", path := "/fields/" ++ p.1, value := p.2 : PatchOp })
    let r : List AdoCall × Except PyExc OpResult :=
      match pyInt item_id with
      | .error e => ([], .error e)
      | .ok idn =>
          match be.updateWorkItem idn patch_ops with
          | .error e => ([.updateWorkItem idn patch_ops], .error e)
          | .ok _ =>
              ([.updateWorkItem idn patch_ops],
               .ok { success := true, adapter := some "AzureDevOpsAdapter",
                     item_id := some (.str item_id),
                     updated_fields := some (.int patch_ops.length) })
    match r with
    | (t, .error (.clientException m)) =>
        (t, .ok { success := false, adapter := some "AzureDevOpsAdapter",
                  error := some ("Failed to update item: " ++ m) })
    | other => other

/-- Behavior of one constructed adapter as observed by the factory: the
boolean its `initialize` coroutine returns (all three adapter classes catch
every exception inside `initialize` and return a bool, so a behavior record
rather than a raising oracle is faithful), the dict its `get_info` coroutine
would produce, its `test_connection` envelope and its `health_check`
outcome (returned dict, or the message of a raised exception). -/
structure AdapterBehavior where
  initResult : Bool := true
  infoDict : RMap := []
  testConnectionResult : OpResult := { success := true }
  healthCheckResult : Except String RMap := .ok []

/-- Embedding of `ALMFactory.configurations` after `_load_configurations`:
which of the three backends have a configuration (and, for each, the behavior
of the adapter constructed from it). -/
structure FactoryConfig where
  jira : Option AdapterBehavior := Option.none
  azure_devops : Option AdapterBehavior := Option.none
  polarion : Option AdapterBehavior := Option.none

/-- Embedding of `ALMFactory._initialize_adapters` (alm_factory.py, lines
94-120): for each configured backend the adapter is constructed, its
`initialize` coroutine is awaited — and the returned boolean is discarded —
and the adapter is stored in `self.adapters` unconditionally.  Since every
adapter's `initialize` catches all exceptions and returns a bool, the
`except` clause of `_initialize_adapters` is never reached and registration
does not depend on `initResult`. -/
def factoryAdapters (fc : FactoryConfig) : List (String × AdapterBehavior) :=
  (match fc.jira with
   | some a => [("jira", a)]
   | Option.none => []) ++
  (match fc.azure_devops with
   | some a => [("azure_devops", a)]
   | Option.none => []) ++
  (match fc.polarion with
   | some a => [("polarion", a)]
   | Option.none => [])

/-- Embedding of Python `s.lower()` (ASCII case folding; backend type
identifiers are ASCII). -/
def pyLower (s : String) : String :=
  String.mk (s.data.map Char.toLower)

/-- Embedding of `ALMFactory.get_adapter` (alm_factory.py, lines 122-124):
`self.adapters.get(alm_type.lower())`. -/
def get_adapter (adapters : List (String × AdapterBehavior)) (alm_type : String) :
    Option AdapterBehavior :=
  match adapters.find? (fun p => p.1 == pyLower alm_type) with
  | some p => some p.2
  | Option.none => Option.none

/-- Embedding of `ALMFactory.get_available_adapters` (alm_factory.py, lines
126-131): a dict comprehension whose value expression is
`adapter.get_info()["name"]`.  `get_info` is an `async def`, so calling it
without `await` yields a coroutine object, and subscripting that coroutine
raises `TypeError`; the comprehension therefore raises on its first item and
only an empty adapters map returns a dict. -/
def get_available_adapters :
    List (String × AdapterBehavior) → Except PyExc (List (String × Value))
  | [] => .ok []
  | (alm_type, a) :: rest => do
      let name ← pySubscript (PyObj.coro (PyObj.dict a.infoDict)) "name"
      let r ← get_available_adapters rest
      pure ((alm_type, name) :: r)

/-- Embedding of `ALMFactory.test_connection` (alm_factory.py, lines 133-158):
an unregistered backend gets the structured
`{"success": False, "error": "Adapter for <type> not available"}` dict,
otherwise the adapter's own `test_connection` result is returned (every
adapter's `test_connection` catches all exceptions, so the outer `except`
is not reached). -/
def factory_test_connection (adapters : List (String × AdapterBehavior))
    (alm_type : String) : OpResult :=
  match get_adapter adapters alm_type with
  | Option.none =>
      { success := false,
        error := some ("Adapter for " ++ alm_type ++ " not available") }
  | some a => a.testConnectionResult

/-- Embedding of the dict returned by `ALMFactory.get_health_status`. -/
structure HealthReport where
  overall_healthy : Bool
  adapters : List (String × RMap)

/-- Embedding of `ALMFactory.get_health_status` (alm_factory.py, lines
348-378), written as structural recursion on the adapters list: the Python
loop only ever lowers the `overall_healthy` flag, so the flag is the
conjunction over adapters and is order-independent, while the per-adapter
status dict is recorded in order — a raising `health_check` contributes
`{"healthy": False, "error": str(e)}`. -/
def get_health_status : List (String × AdapterBehavior) → HealthReport
  | [] => { overall_healthy := true, adapters := [] }
  | (alm_type, a) :: rest =>
      let r := get_health_status rest
      match a.healthCheckResult with
      | .ok adapter_health =>
          { overall_healthy :=
              ((adapter_health.getD "healthy" (Value.bool false)).truthy
                && r.overall_healthy),
            adapters := (alm_type, adapter_health) :: r.adapters }
      | .error e =>
          { overall_healthy := false,
            adapters :=
              (alm_type, [("healthy", Value.bool false), ("error", Value.str e)])
                :: r.adapters }

/-- Outcome of `BaseALMAdapter.retry_operation`: how many times the wrapped
operation was invoked, the back-off sleeps performed between consecutive
attempts (as exact rationals; for the default one-second base delay the
CPython float arithmetic `delay * (2 ** attempt)` is exact, so rationals are
faithful), and the final result — `ok None` when `range(max_retries)` is
empty and the loop body never runs. -/
structure RetryOutcome where
  attempts : Nat
  sleeps : List ℚ
  result : Except PyExc Value

/-- Embedding of the `for attempt in range(max_retries)` loop of
`BaseALMAdapter.retry_operation` (base_adapter.py, lines 186-204), recursing
on the remaining number of iterations: a successful call returns at once; a
failing call re-raises on the last attempt (`attempt == max_retries - 1`) and
otherwise sleeps `delay * 2 ** attempt` and continues. -/
def retryGo (operation : Nat → Except PyExc Value) (delay : ℚ)
    (max_retries : Nat) : Nat → Nat → RetryOutcome
  | _, 0 => { attempts := 0, sleeps := [], result := .ok Value.none }
  | attempt, fuel + 1 =>
      match operation attempt with
      | .ok v => { attempts := 1, sleeps := [], result := .ok v }
      | .error e =>
          if attempt == max_retries - 1 then
            { attempts := 1, sleeps := [], result := .error e }
          else
            let rest := retryGo operation delay max_retries (attempt + 1) fuel
            { attempts := rest.attempts + 1,
              sleeps := delay * 2 ^ attempt :: rest.sleeps,
              result := rest.result }

/-- Embedding of `BaseALMAdapter.retry_operation` (base_adapter.py, lines
186-204); the `operation` argument gives the outcome of the k-th invocation
of the wrapped zero-argument coroutine (0-based). -/
def retry_operation (operation : Nat → Except PyExc Value)
    (max_retries : Nat := 3) (delay : ℚ := 1) : RetryOutcome :=
  retryGo operation delay max_retries 0 max_retries

/-- Test for a remote `issue.update` call in a Jira call trace. -/
def JiraCall.isUpdate : JiraCall → Bool
  | .updateIssue _ _ => true
  | _ => false

/-- Test for a remote `create_issue` call in a Jira call trace. -/
def JiraCall.isCreate : JiraCall → Bool
  | .createIssue _ => true
  | _ => false

/-- Target field name an entry of a `map_fields` mapping would write to, if
any. -/
def FieldTarget.targetName : FieldTarget → Option String
  | .flat t => some t
  | .nested f _ => f

/-- Fixture: a Jira backend whose stored issue already matches the record
used in the no-op re-sync scenario. -/
def beC1 : JiraBackend :=
  { project := fun _ => .ok (),
    issue := fun _ =>
      .ok { summary := .str "Validate login",
            description := .str "Login must be validated" },
    createIssue := fun _ => .ok { key := "HC-1", id := "10001" },
    updateIssue := fun _ _ => .ok () }

/-- Fixture: a Linked requirement record whose mapped fields all match the
remote issue held by `beC1`. -/
def reqC1 : RMap :=
  [("req_id", .str "R1"), ("jira_issue_key", .str "HC-1"),
   ("title", .str "Validate login"),
   ("text", .str "Login must be validated")]

/-- Fixture: sync configuration carrying the single unchanged record. -/
def cfgC1 : JiraSyncConfig :=
  { jira_project_key := .str "HC", requirements := [reqC1] }

/-- Fixture: a Jira backend whose `create_issue` succeeds with key `HC-7`. -/
def beC2 : JiraBackend :=
  { project := fun _ => .ok (),
    issue := fun _ => .error (.jiraError "issue does not exist"),
    createIssue := fun _ => .ok { key := "HC-7", id := "10007" },
    updateIssue := fun _ _ => .ok () }

/-- Fixture: an Unlinked requirement record (no stored `jira_issue_key`). -/
def reqC2 : RMap :=
  [("req_id", .str "R1"), ("title", .str "Validate login"),
   ("text", .str "Login must be validated")]

/-- Fixture: sync configuration carrying the single Unlinked record. -/
def cfgC2 : JiraSyncConfig :=
  { jira_project_key := .str "HC", requirements := [reqC2] }

/-- Fixture: a Jira adapter behavior whose `initialize` returned `False`
(bad credentials) and whose own `test_connection` reports the credential
failure. -/
def behJiraC3 : AdapterBehavior :=
  { initResult := false,
    infoDict := [("name", .str "Jira Adapter")],
    testConnectionResult :=
      { success := false, adapter := some "JiraAdapter",
        error := some "Jira connection failed: bad credentials" } }

/-- Fixture: a healthy Azure DevOps adapter behavior. -/
def behAzureC3 : AdapterBehavior :=
  { initResult := true, infoDict := [("name", .str "Azure DevOps Adapter")] }

/-- Fixture: factory configuration in which Jira failed to initialize and
Azure DevOps succeeded. -/
def fcC3 : FactoryConfig :=
  { jira := some behJiraC3, azure_devops := some behAzureC3 }

/-- Fixture: a requirement record whose per-record sync fails against
`beC2`-style backends — its create call raises a `JIRAError`. -/
def beC4 : JiraBackend :=
  { project := fun _ => .ok (),
    issue := fun _ => .error (.jiraError "issue does not exist"),
    createIssue := fun d =>
      match d.get? "summary" with
      | some (.str "bad summary") => .error (.jiraError "field summary is invalid")
      | _ => .ok { key := "HC-9", id := "10009" },
    updateIssue := fun _ _ => .ok () }

/-- Fixture: the failing record of the partial-batch scenario. -/
def reqC4bad : RMap :=
  [("req_id", .str "R2"), ("title", .str "bad summary"),
   ("text", .str "Second requirement")]

/-- Fixture: a succeeding record of the partial-batch scenario. -/
def reqC4a : RMap :=
  [("req_id", .str "R1"), ("title", .str "First requirement"),
   ("text", .str "First requirement body")]

/-- Fixture: another succeeding record of the partial-batch scenario. -/
def reqC4b : RMap :=
  [("req_id", .str "R3"), ("title", .str "Third requirement"),
   ("text", .str "Third requirement body")]

/-- Fixture: the three-record batch in which only the middle record fails. -/
def cfgC4 : JiraSyncConfig :=
  { jira_project_key := .str "HC", requirements := [reqC4a, reqC4bad, reqC4b] }

/-- Fixture: an Azure DevOps backend whose remote update always succeeds. -/
def adoC5 : AdoBackend :=
  { updateWorkItem := fun _ _ => .ok () }

/-- Fixture: a Jira backend whose issue fetch raises a `JIRAError`. -/
def beC5 : JiraBackend :=
  { project := fun _ => .ok (),
    issue := fun _ => .error (.jiraError "issue does not exist"),
    createIssue := fun _ => .ok { key := "HC-1", id := "10001" },
    updateIssue := fun _ _ => .ok () }

/-- Fixture: source record and mapping for the field-mapping witnesses. -/
def srcC6 : RMap :=
  [("title", .str "Validate login"), ("text", .str "Login must be validated")]

/-- Fixture: a mapping with one present entry, one absent entry and one
structured entry. -/
def mapC6 : FieldMapping :=
  [("title", .flat "summary"),
   ("std_tags", .flat "labels"),
   ("text", .nested (some "description") Option.none)]

/-- Fixture: an operation that fails on its first two invocations and
succeeds on the third. -/
def opC7 : Nat → Except PyExc Value :=
  fun k => if k < 2 then .error (.other "transient failure") else .ok (.str "done")

/-- Fixture: an adapter map for the coroutine-subscription witness. -/
def adaptersC8 : List (String × AdapterBehavior) :=
  [("jira", { infoDict := [("name", .str "Jira Adapter")] })]

/-- Fixture: a transform that always raises. -/
def trC10 : Value → Except PyExc Value :=
  fun _ => .error (.other "transform exploded")

/-- Fixture: a mapping whose first entry applies the raising transform and
whose second entry would map cleanly. -/
def mapC10 : FieldMapping :=
  [("title", .nested (some "summary") (some trC10)),
   ("text", .flat "description")]

theorem mapFieldsGo_skip_absent (src : RMap) :
    ∀ (mapping : FieldMapping) (acc : RMap),
    mapFieldsGo src mapping acc
      = mapFieldsGo src (mapping.filter (fun p => (src.get? p.1).isSome)) acc := by
  intro mapping
  induction mapping with
  | nil => intro acc; rfl
  | cons e rest ih =>
      intro acc
      obtain ⟨s, t⟩ := e
      rcases hsv : src.get? s with _ | v
      · simpa [mapFieldsGo, hsv, List.filter_cons] using ih acc
      · match t with
        | .flat tf =>
            simp [mapFieldsGo, hsv, List.filter_cons, ih]
        | .nested Option.none tr =>
            simp [mapFieldsGo, hsv, List.filter_cons, ih]
        | .nested (some mf) Option.none =>
            simp [mapFieldsGo, hsv, List.filter_cons, ih]
        | .nested (some mf) (some tr) =>
            simp only [mapFieldsGo, hsv, List.filter_cons, Option.isSome_some,
              if_pos]
            cases htr : tr v with
            | error e => simp [mapFieldsGo, hsv, htr]
            | ok v2 => simp [mapFieldsGo, hsv, htr, ih]

theorem RMap.keys_insert (k : String) (v : Value) :
    ∀ (m : RMap), ∀ x ∈ (m.insert k v).keys, x = k ∨ x ∈ m.keys := by
  intro m
  induction m with
  | nil => simp [RMap.insert, RMap.keys]
  | cons p rest ih =>
      obtain ⟨k', v'⟩ := p
      by_cases h : k' = k
      · simp only [RMap.insert, if_pos h, RMap.keys, List.map_cons, List.mem_cons]
        intro x hx
        rcases hx with hx | hx
        · exact Or.inl hx
        · exact Or.inr (Or.inr hx)
      · simp only [RMap.insert, if_neg h, RMap.keys, List.map_cons, List.mem_cons]
        intro x hx
        rcases hx with hx | hx
        · exact Or.inr (Or.inl hx)
        · rcases ih x hx with h1 | h1
          · exact Or.inl h1
          · exact Or.inr (Or.inr h1)

theorem mapFieldsGo_keys (src : RMap) :
    ∀ (mapping : FieldMapping) (acc r : RMap),
    mapFieldsGo src mapping acc = .ok r →
    ∀ x ∈ r.keys, x ∈ acc.keys ∨
      ∃ p ∈ mapping, (src.get? p.1).isSome ∧ p.2.targetName = some x := by
  intro mapping
  induction mapping with
  | nil =>
      intro acc r h x hx
      simp only [mapFieldsGo] at h
      cases h
      exact Or.inl hx
  | cons e rest ih =>
      intro acc r h x hx
      obtain ⟨s, t⟩ := e
      rcases hsv : src.get? s with _ | v
      · simp only [mapFieldsGo, hsv] at h
        rcases ih acc r h x hx with h1 | ⟨p, hp, hps, hpt⟩
        · exact Or.inl h1
        · exact Or.inr ⟨p, List.mem_cons_of_mem _ hp, hps, hpt⟩
      · have finish :
            ∀ (mf : String) (acc' : RMap),
            t.targetName = some mf →
            (∀ y ∈ acc'.keys, y = mf ∨ y ∈ acc.keys) →
            mapFieldsGo src rest acc' = .ok r →
            x ∈ acc.keys ∨
              ∃ p ∈ (s, t) :: rest, (src.get? p.1).isSome ∧
                p.2.targetName = some x := by
          intro mf acc' htn hacc hrec
          rcases ih acc' r hrec x hx with h1 | ⟨p, hp, hps, hpt⟩
          · rcases hacc x h1 with h2 | h2
            · subst h2
              exact Or.inr ⟨(s, t), List.mem_cons_self _ _, by simp [hsv], htn⟩
            · exact Or.inl h2
          · exact Or.inr ⟨p, List.mem_cons_of_mem _ hp, hps, hpt⟩
        match t, h with
        | .flat tf, h =>
            simp only [mapFieldsGo, hsv] at h
            exact finish tf _ rfl (RMap.keys_insert tf v acc) h
        | .nested Option.none tr, h =>
            simp only [mapFieldsGo, hsv] at h
            rcases ih acc r h x hx with h1 | ⟨p, hp, hps, hpt⟩
            · exact Or.inl h1
            · exact Or.inr ⟨p, List.mem_cons_of_mem _ hp, hps, hpt⟩
        | .nested (some mf) Option.none, h =>
            simp only [mapFieldsGo, hsv] at h
            exact finish mf _ rfl (RMap.keys_insert mf v acc) h
        | .nested (some mf) (some tr), h =>
            simp only [mapFieldsGo, hsv] at h
            cases htr : tr v with
            | error e2 => rw [htr] at h; cases h
            | ok v2 =>
                rw [htr] at h
                exact finish mf _ rfl (RMap.keys_insert mf v2 acc) h

/-- C6: `map_fields` skips every mapping entry whose source attribute is
absent from the record — deleting such entries from the mapping does not
change the result — and every key of the produced map is the target field of
some mapping entry whose source attribute is present in the record (with the
optional transform applied before the value is stored, as embedded in
`mapFieldsGo`). -/
theorem C6_thm (source_data : RMap) (field_mapping : FieldMapping) :
    map_fields source_data field_mapping
      = map_fields source_data
          (field_mapping.filter (fun p => (source_data.get? p.1).isSome))
    ∧ ∀ x ∈ (map_fields source_data field_mapping).keys,
        ∃ p ∈ field_mapping, (source_data.get? p.1).isSome ∧
          p.2.targetName = some x := by
  constructor
  · unfold map_fields
    rw [mapFieldsGo_skip_absent]
  · intro x hx
    unfold map_fields at hx
    cases hgo : mapFieldsGo source_data field_mapping [] with
    | ok r =>
        rw [hgo] at hx
        rcases mapFieldsGo_keys source_data field_mapping [] r hgo x hx with h1 | h2
        · simp [RMap.keys] at h1
        · exact h2
    | error e =>
        rw [hgo] at hx
        simp [RMap.keys] at hx

/-- Witness for C6 at a concrete record and mapping: the entry whose source
attribute (`std_tags`) is absent contributes nothing. -/
theorem C6_witness :
    map_fields srcC6 mapC6
      = map_fields srcC6 (mapC6.filter (fun p => (srcC6.get? p.1).isSome)) :=
  (C6_thm srcC6 mapC6).1

theorem mapFieldsGo_error_of_throwing (src : RMap) (s mf : String)
    (tr : Value → Except PyExc Value) (v : Value) (exc : PyExc)
    (hv : src.get? s = some v) (htr : tr v = .error exc) :
    ∀ (mapping : FieldMapping) (acc : RMap),
    (s, FieldTarget.nested (some mf) (some tr)) ∈ mapping →
    ∃ e, mapFieldsGo src mapping acc = .error e := by
  intro mapping
  induction mapping with
  | nil => intro acc h; cases h
  | cons e rest ih =>
      intro acc hmem
      rcases List.mem_cons.mp hmem with heq | htail
      · subst heq
        refine ⟨exc, ?_⟩
        simp only [mapFieldsGo, hv, htr]
      · obtain ⟨s', t'⟩ := e
        rcases hsv : src.get? s' with _ | v'
        · simpa only [mapFieldsGo, hsv] using ih acc htail
        · match t' with
          | .flat tf =>
              simpa only [mapFieldsGo, hsv] using ih _ htail
          | .nested Option.none tr' =>
              simpa only [mapFieldsGo, hsv] using ih _ htail
          | .nested (some mf') Option.none =>
              simpa only [mapFieldsGo, hsv] using ih _ htail
          | .nested (some mf') (some tr') =>
              cases htr' : tr' v' with
              | error e2 =>
                  exact ⟨e2, by simp only [mapFieldsGo, hsv, htr']⟩
              | ok v2 =>
                  simpa only [mapFieldsGo, hsv, htr'] using ih _ htail

/-- C10: if any transform referenced by the mapping raises while `map_fields`
processes a record (the entry's source attribute is present, so the transform
is applied to its value and fails), `map_fields` returns the empty map,
discarding the fields already mapped; totality of the embedding reflects that
the `except Exception` handler never re-raises. -/
theorem C10_thm (source_data : RMap) (field_mapping : FieldMapping)
    (s mf : String) (tr : Value → Except PyExc Value) (v : Value) (exc : PyExc)
    (hmem : (s, FieldTarget.nested (some mf) (some tr)) ∈ field_mapping)
    (hv : source_data.get? s = some v) (htr : tr v = .error exc) :
    map_fields source_data field_mapping = [] := by
  obtain ⟨e, he⟩ :=
    mapFieldsGo_error_of_throwing source_data s mf tr v exc hv htr
      field_mapping [] hmem
  simp [map_fields, he]

/-- Witness for C10: a raising transform on the first entry empties the whole
result even though the second entry (`text` → `description`) would have
mapped cleanly. -/
theorem C10_witness :
    map_fields srcC6 mapC10 = [] :=
  C10_thm srcC6 mapC10 "title" "summary" trC10 (.str "Validate login")
    (.other "transform exploded") (List.mem_cons_self _ _) rfl rfl

/-- C8: whenever the factory's adapters map is non-empty,
`get_available_adapters` raises `TypeError` — the dict comprehension
subscripts the coroutine returned by calling the async `get_info` without
awaiting it — and it returns a dict (the empty one) exactly when no adapters
are registered. -/
theorem C8_thm (adapters : List (String × AdapterBehavior)) :
    (adapters = [] → get_available_adapters adapters = .ok []) ∧
    (adapters ≠ [] →
      get_available_adapters adapters
        = .error (.typeError "coroutine object is not subscriptable")) := by
  constructor
  · rintro rfl
    rfl
  · intro h
    match adapters with
    | [] => exact absurd rfl h
    | (t, a) :: rest => rfl

/-- Witness for C8: a one-adapter registry raises `TypeError`. -/
theorem C8_witness :
    adaptersC8 ≠ [] ∧
    get_available_adapters adaptersC8
      = .error (.typeError "coroutine object is not subscriptable") :=
  ⟨by simp [adaptersC8], (C8_thm adaptersC8).2 (by simp [adaptersC8])⟩

/-- C9: `get_health_status` reports `overall_healthy = true` exactly when
every registered adapter's `health_check` returns a dict whose `healthy`
entry is truthy and no `health_check` raises, and it records a per-adapter
status entry for every registered adapter (a raising adapter contributes
`{"healthy": False, "error": str(e)}`). -/
theorem C9_thm (adapters : List (String × AdapterBehavior)) :
    ((get_health_status adapters).overall_healthy = true ↔
      ∀ p ∈ adapters, ∃ h, p.2.healthCheckResult = .ok h ∧
        (h.getD "healthy" (Value.bool false)).truthy = true) ∧
    (get_health_status adapters).adapters.map Prod.fst
      = adapters.map Prod.fst := by
  induction adapters with
  | nil => simp [get_health_status]
  | cons p rest ih =>
      obtain ⟨t, a⟩ := p
      cases hca : a.healthCheckResult with
      | ok h =>
          constructor
          · simp only [get_health_status, hca, Bool.and_eq_true,
              List.forall_mem_cons, ih.1, hca, Except.ok.injEq]
            constructor
            · rintro ⟨h1, h2⟩
              exact ⟨⟨h, rfl, h1⟩, h2⟩
            · rintro ⟨⟨h', hh', ht'⟩, h2⟩
              cases hh'
              exact ⟨ht', h2⟩
          · simp [get_health_status, hca, ih.2]
      | error e =>
          constructor
          · simp only [get_health_status, hca, List.forall_mem_cons]
            constructor
            · intro hfalse
              cases hfalse
            · rintro ⟨⟨h', hh', _⟩, _⟩
              exact Except.noConfusion hh'
          · simp [get_health_status, hca, ih.2]

/-- C9 witness at a concrete registry: a status entry is recorded for the
registered adapter. -/
theorem C9_witness :
    (get_health_status adaptersC8).adapters.map Prod.fst
      = adaptersC8.map Prod.fst :=
  (C9_thm adaptersC8).2

/-- C3 counterexample: with a Jira adapter whose `initialize` returned
`False` (bad credentials) and a healthy Azure DevOps adapter, the factory
still registers the Jira adapter — `get_available_adapters`' underlying map
does not exclude it — and `test_connection("jira")` returns the adapter's own
credential error, not the structured "Adapter for jira not available"
error. -/
theorem C3_cex :
    get_adapter (factoryAdapters fcC3) "jira" = some behJiraC3 ∧
    factory_test_connection (factoryAdapters fcC3) "jira"
      = behJiraC3.testConnectionResult ∧
    (factory_test_connection (factoryAdapters fcC3) "jira").error
      ≠ some "Adapter for jira not available" ∧
    get_adapter (factoryAdapters fcC3) "azure_devops" = some behAzureC3 := by
  exact ⟨rfl, rfl, by decide, rfl⟩

/-- C3 (amended): `_initialize_adapters` registers every configured adapter
regardless of the boolean its `initialize` returned, so a backend whose
`initialize` failed is not excluded: `get_adapter` still finds it,
`test_connection` for it dispatches to the adapter and returns the adapter's
own structured result, and the other configured backends are registered
independently (no adapter's `initialize` raises, as each catches all
exceptions and returns a bool). -/
theorem C3_thm (j az pol : Option AdapterBehavior) (a b : AdapterBehavior)
    (hj : j = some a) (ha : az = some b) (hinit : a.initResult = false) :
    get_adapter (factoryAdapters ⟨j, az, pol⟩) "jira" = some a ∧
    get_adapter (factoryAdapters ⟨j, az, pol⟩) "azure_devops" = some b ∧
    factory_test_connection (factoryAdapters ⟨j, az, pol⟩) "jira"
      = a.testConnectionResult := by
  subst hj ha
  cases pol <;> exact ⟨rfl, rfl, rfl⟩

/-- Witness for C3 at the concrete failed-Jira configuration. -/
theorem C3_witness :
    behJiraC3.initResult = false ∧
    get_adapter (factoryAdapters ⟨some behJiraC3, some behAzureC3,
      Option.none⟩) "jira" = some behJiraC3 :=
  ⟨rfl, (C3_thm (some behJiraC3) (some behAzureC3) Option.none behJiraC3
    behAzureC3 rfl rfl rfl).1⟩

/-- C5 counterexample: `AzureDevOpsAdapter.update_item` called with the
non-numeric item id `"abc"` raises `ValueError` across the contract boundary
— `int(item_id)` raises and only `ClientException` is caught — instead of
returning an error envelope. -/
theorem C5_cex :
    (azure_update_item adoC5 "abc" [] {}).2
      = .error (.valueError "invalid literal for int with base 10: abc") := rfl

/-- C5 (amended): single-item operations catch only the backend library's own
exception class at the contract boundary — a `JIRAError` during the Jira
`update_item` and a `ClientException` during the Azure DevOps `update_item`
become `Envelope{success: false, error}` — while exceptions of any other
class (such as the `ValueError` raised by `int(item_id)` on a non-numeric id
in the Azure adapter) propagate as raised exceptions. -/
theorem C5_thm (be : JiraBackend) (abe : AdoBackend) (item_id : Value)
    (sid : String) (item_data : RMap) (project_config : ProjectConfig)
    (hbc : be.hasClient = true) (habc : abe.hasClient = true) :
    (∀ m, be.issue item_id = .error (.jiraError m) →
       (jira_update_item be item_id item_data project_config).2
         = .ok { success := false, adapter := some "JiraAdapter",
                 error := some ("Failed to update item: " ++ m) }) ∧
    (∀ em, pyInt sid = .error (.valueError em) →
       (azure_update_item abe sid item_data project_config).2
         = .error (.valueError em)) ∧
    (∀ idn m, pyInt sid = .ok idn →
       abe.updateWorkItem idn
           ((map_fields item_data project_config.field_mapping).map
             (fun p => { op := "replace", path := "/fields/" ++ p.1,
                         value := p.2 : PatchOp }))
         = .error (.clientException m) →
       (azure_update_item abe sid item_data project_config).2
         = .ok { success := false, adapter := some "AzureDevOpsAdapter",
                 error := some ("Failed to update item: " ++ m) }) := by
  refine ⟨?_, ?_, ?_⟩
  · intro m h
    simp [jira_update_item, hbc, h]
  · intro em h
    simp [azure_update_item, habc, h]
  · intro idn m hid hupd
    simp [azure_update_item, habc, hid, hupd]

/-- Witness for C5 at concrete inputs: the Jira fetch failure is converted
into an error envelope, and the Azure `ValueError` propagates. -/
theorem C5_witness :
    (jira_update_item beC5 (.str "HC-1") [] {}).2
      = .ok { success := false, adapter := some "JiraAdapter",
              error := some "Failed to update item: issue does not exist" } ∧
    (azure_update_item adoC5 "abc" [] {}).2
      = .error (.valueError "invalid literal for int with base 10: abc") :=
  ⟨(C5_thm beC5 adoC5 (.str "HC-1") "abc" [] {} rfl rfl).1
      "issue does not exist" rfl,
   (C5_thm beC5 adoC5 (.str "HC-1") "abc" [] {} rfl rfl).2.1
      "invalid literal for int with base 10: abc" rfl⟩

/-- C1 counterexample: re-syncing the unchanged Linked record `reqC1` issues
no remote update call, but the resulting envelope is
`{synced_items: 1, created_items: 0, updated_items: 1, errors: []}` — not the
claimed `updated_items: 0` — because `sync_project` counts every successful
non-create result as updated (jira_adapter.py, lines 149-152), and the no-op
branch of `_update_jira_issue` still returns `created: False` with
`success: True`. -/
theorem C1_cex :
    (jira_sync_project beC1 "proj-1" cfgC1).2
      = { success := true, synced_items := 1, created_items := 0,
          updated_items := 1, errors := [] } ∧
    (jira_sync_project beC1 "proj-1" cfgC1).1.all (fun c => !c.isUpdate)
      = true :=
  ⟨rfl, rfl⟩

/-- C1 (amended): for a Linked record whose computed changed-field set is
empty, `sync_project` performs no remote update call and counts the record as
synced — but it counts it as updated, not as a no-op: the envelope is
`{synced_items: 1, created_items: 0, updated_items: 1, errors: []}`. -/
theorem C1_thm (be : JiraBackend) (project_id : String) (req : RMap)
    (cfg : JiraSyncConfig) (issue : IssueFields) (ns : Value)
    (hclient : be.hasClient = true)
    (hpk : cfg.jira_project_key.truthy = true)
    (hproj : be.project cfg.jira_project_key = .ok ())
    (hreqs : cfg.requirements = [req])
    (hkey : (req.getD "jira_issue_key" Value.none).truthy = true)
    (hissue : be.issue (req.getD "jira_issue_key" Value.none) = .ok issue)
    (hns : jiraNewSummary req = .ok ns)
    (hupd : jiraUpdateData issue ns req cfg.field_mapping = []) :
    (jira_sync_project be project_id cfg).2
      = { success := true, synced_items := 1, created_items := 0,
          updated_items := 1, errors := [] } ∧
    (jira_sync_project be project_id cfg).1.all (fun c => !c.isUpdate)
      = true := by
  have hitem : syncRequirementToIssue be req cfg.jira_project_key cfg
      = ([.fetchIssue (req.getD "jira_issue_key" Value.none)],
         { success := true, created := false,
           issue_key := some (req.getD "jira_issue_key" Value.none),
           updated_fields := some [] }) := by
    simp [syncRequirementToIssue, hkey, updateJiraIssue, hissue, hns, hupd,
      jiraCatch, RMap.keys]
  constructor
  · simp [jira_sync_project, hclient, hpk, hproj, hreqs, jiraSyncGo, hitem]
  · simp [jira_sync_project, hclient, hpk, hproj, hreqs, jiraSyncGo, hitem,
      JiraCall.isUpdate]

/-- Witness for C1 at the concrete unchanged record. -/
theorem C1_witness :
    (jira_sync_project beC1 "proj-2" cfgC1).2
      = { success := true, synced_items := 1, created_items := 0,
          updated_items := 1, errors := [] } ∧
    (jira_sync_project beC1 "proj-2" cfgC1).1.all (fun c => !c.isUpdate)
      = true :=
  C1_thm beC1 "proj-2" reqC1 cfgC1
    { summary := .str "Validate login",
      description := .str "Login must be validated" }
    (.str "Validate login") rfl rfl rfl rfl rfl rfl rfl rfl

/-- C2 counterexample: the Unlinked record `reqC2` is created successfully
(`created_items = 1`), but nothing attaches the returned remote id to the
record — no code in the sync path writes to the requirement dict — so the
record still has no `jira_issue_key`, and the later sync of the same record
(the same pure computation, as the inputs are unchanged) again issues exactly
one create call and no update call, contradicting "a later sync takes the
update path". -/
theorem C2_cex :
    (jira_sync_project beC2 "proj-1" cfgC2).2.created_items = 1 ∧
    (jira_sync_project beC2 "proj-1" cfgC2).2.errors = [] ∧
    ((jira_sync_project beC2 "proj-1" cfgC2).1.filter JiraCall.isCreate).length
      = 1 ∧
    (jira_sync_project beC2 "proj-1" cfgC2).1.all (fun c => !c.isUpdate)
      = true ∧
    reqC2.get? "jira_issue_key" = Option.none :=
  ⟨rfl, rfl, rfl, rfl, rfl⟩

/-- C2 (amended): for a record with no stored remote id, the per-record sync
issues exactly one `create_issue` call (and no other remote call), and on
success returns a result carrying the backend's new key — but the id is only
reported in the result, never attached to the record, so a later sync of the
unchanged record takes the create path again. -/
theorem C2_thm (be : JiraBackend) (req : RMap) (project_key : Value)
    (cfg : JiraSyncConfig) (d : RMap)
    (hkey : (req.getD "jira_issue_key" Value.none).truthy = false)
    (hdata : jiraCreateIssueData project_key req cfg.issue_type
      cfg.field_mapping = .ok d) :
    (syncRequirementToIssue be req project_key cfg).1
      = [.createIssue d] ∧
    (∀ ni, be.createIssue d = .ok ni →
       (syncRequirementToIssue be req project_key cfg).2
         = { success := true, created := true,
             issue_key := some (.str ni.key), issue_id := some ni.id }) := by
  constructor
  · cases hc : be.createIssue d with
    | ok ni =>
        simp [syncRequirementToIssue, hkey, createJiraIssue, hdata, hc,
          jiraCatch]
    | error e =>
        cases e <;>
          simp [syncRequirementToIssue, hkey, createJiraIssue, hdata, hc,
            jiraCatch]
  · intro ni hni
    simp [syncRequirementToIssue, hkey, createJiraIssue, hdata, hni, jiraCatch]

/-- Witness for C2 at the concrete Unlinked record: one create call, and the
result reports the backend's new key `HC-7`. -/
theorem C2_witness :
    (reqC2.getD "jira_issue_key" Value.none).truthy = false ∧
    (syncRequirementToIssue beC2 reqC2 (.str "HC") cfgC2).2
      = { success := true, created := true,
          issue_key := some (.str "HC-7"), issue_id := some "10007" } :=
  ⟨rfl,
   (C2_thm beC2 reqC2 (.str "HC") cfgC2
      [("project", .dict [("key", .str "HC")]),
       ("summary", .str "Validate login"),
       ("description", .str "Login must be validated"),
       ("issuetype", .dict [("name", .str "Story")])]
      rfl rfl).2 { key := "HC-7", id := "10007" } rfl⟩

theorem jiraSyncGo_append (be : JiraBackend) (pk : Value)
    (cfg : JiraSyncConfig) (ys : List RMap) :
    ∀ (xs : List RMap),
    (jiraSyncGo be pk cfg (xs ++ ys)).2.synced_items
      = (jiraSyncGo be pk cfg xs).2.synced_items
        + (jiraSyncGo be pk cfg ys).2.synced_items ∧
    (jiraSyncGo be pk cfg (xs ++ ys)).2.errors
      = (jiraSyncGo be pk cfg xs).2.errors
        ++ (jiraSyncGo be pk cfg ys).2.errors := by
  intro xs
  induction xs with
  | nil => simp [jiraSyncGo]
  | cons r rest ih =>
      rcases hsr : syncRequirementToIssue be r pk cfg with ⟨t, res⟩
      constructor
      · cases hres : res.success <;>
          simp [jiraSyncGo, hsr, hres, ih.1] <;> omega
      · cases hres : res.success <;>
          simp [jiraSyncGo, hsr, hres, ih.2]

theorem jiraSyncGo_all_success (be : JiraBackend) (pk : Value)
    (cfg : JiraSyncConfig) :
    ∀ (xs : List RMap),
    (∀ r ∈ xs, (syncRequirementToIssue be r pk cfg).2.success = true) →
    (jiraSyncGo be pk cfg xs).2.synced_items = xs.length ∧
    (jiraSyncGo be pk cfg xs).2.errors = [] := by
  intro xs
  induction xs with
  | nil => intro _; simp [jiraSyncGo]
  | cons r rest ih =>
      intro hall
      have hrest := ih (fun x hx => hall x (List.mem_cons_of_mem _ hx))
      rcases hsr : syncRequirementToIssue be r pk cfg with ⟨t, res⟩
      have hr : res.success = true := by
        have hm := hall r (List.mem_cons_self _ _)
        rw [hsr] at hm
        exact hm
      constructor
      · simp [jiraSyncGo, hsr, hr, hrest.1]
      · simp [jiraSyncGo, hsr, hr, hrest.2]

/-- C4: in a batch where exactly one record's sync fails (its create call
returns an error result or raises — embedded as the per-record outcome having
`success = False` with message `m`) and every other record succeeds,
`sync_project` still processes the remaining records and returns a success
envelope with `synced_items = N - 1` and exactly one error entry carrying the
failing record's `req_id` and message. -/
theorem C4_thm (be : JiraBackend) (project_id : String)
    (cfg : JiraSyncConfig) (xs ys : List RMap) (bad : RMap) (m : String)
    (hclient : be.hasClient = true)
    (hpk : cfg.jira_project_key.truthy = true)
    (hproj : be.project cfg.jira_project_key = .ok ())
    (hreqs : cfg.requirements = xs ++ bad :: ys)
    (hxs : ∀ r ∈ xs,
      (syncRequirementToIssue be r cfg.jira_project_key cfg).2.success = true)
    (hys : ∀ r ∈ ys,
      (syncRequirementToIssue be r cfg.jira_project_key cfg).2.success = true)
    (hbad : (syncRequirementToIssue be bad cfg.jira_project_key cfg).2.success
      = false)
    (hbadm : (syncRequirementToIssue be bad cfg.jira_project_key cfg).2.error
      = some m) :
    (jira_sync_project be project_id cfg).2.success = true ∧
    (jira_sync_project be project_id cfg).2.synced_items
      = xs.length + ys.length ∧
    (jira_sync_project be project_id cfg).2.errors
      = [{ req_id := bad.getD "req_id" Value.none, error := some m }] := by
  rcases hg : jiraSyncGo be cfg.jira_project_key cfg cfg.requirements
    with ⟨t, c⟩
  have henv : (jira_sync_project be project_id cfg).2
      = { success := true, synced_items := c.synced_items,
          created_items := c.created_items, updated_items := c.updated_items,
          errors := c.errors } := by
    simp [jira_sync_project, hclient, hpk, hproj, hg]
  have happ := jiraSyncGo_append be cfg.jira_project_key cfg (bad :: ys) xs
  have hxs' := jiraSyncGo_all_success be cfg.jira_project_key cfg xs hxs
  have hys' := jiraSyncGo_all_success be cfg.jira_project_key cfg ys hys
  rcases hsb : syncRequirementToIssue be bad cfg.jira_project_key cfg
    with ⟨tb, resb⟩
  rw [hsb] at hbad hbadm
  have hbad2 : resb.success = false := hbad
  have hbadm2 : resb.error = some m := hbadm
  have hbadys :
      (jiraSyncGo be cfg.jira_project_key cfg (bad :: ys)).2.synced_items
        = (jiraSyncGo be cfg.jira_project_key cfg ys).2.synced_items ∧
      (jiraSyncGo be cfg.jira_project_key cfg (bad :: ys)).2.errors
        = { req_id := bad.getD "req_id" Value.none, error := resb.error }
            :: (jiraSyncGo be cfg.jira_project_key cfg ys).2.errors := by
    simp [jiraSyncGo, hsb, hbad2]
  rw [← hreqs, hg] at happ
  have h1 : c.synced_items
      = (jiraSyncGo be cfg.jira_project_key cfg xs).2.synced_items
        + (jiraSyncGo be cfg.jira_project_key cfg (bad :: ys)).2.synced_items :=
    happ.1
  have h2 : c.errors
      = (jiraSyncGo be cfg.jira_project_key cfg xs).2.errors
        ++ (jiraSyncGo be cfg.jira_project_key cfg (bad :: ys)).2.errors :=
    happ.2
  refine ⟨by rw [henv], ?_, ?_⟩
  · rw [henv]
    show c.synced_items = xs.length + ys.length
    rw [h1, hxs'.1, hbadys.1, hys'.1]
  · rw [henv]
    show c.errors = _
    rw [h2, hxs'.2, hbadys.2, hys'.2, hbadm2]
    simp

/-- Witness for C4 at the concrete three-record batch in which the middle
record's create call raises a `JIRAError`. -/
theorem C4_witness :
    (syncRequirementToIssue beC4 reqC4bad (.str "HC") cfgC4).2.success
      = false ∧
    (jira_sync_project beC4 "proj-1" cfgC4).2.success = true ∧
    (jira_sync_project beC4 "proj-1" cfgC4).2.synced_items = 2 ∧
    (jira_sync_project beC4 "proj-1" cfgC4).2.errors
      = [{ req_id := .str "R2", error := some "field summary is invalid" }] := by
  have h := C4_thm beC4 "proj-1" cfgC4 [reqC4a] [reqC4b] reqC4bad
    "field summary is invalid" rfl rfl rfl rfl
    (by intro r hr; rw [List.mem_singleton] at hr; subst hr; rfl)
    (by intro r hr; rw [List.mem_singleton] at hr; subst hr; rfl)
    rfl rfl
  exact ⟨rfl, h.1, h.2.1, h.2.2⟩

theorem retryGo_attempts_le (op : Nat → Except PyExc Value) (δ : ℚ) (M : Nat) :
    ∀ (f a : Nat), (retryGo op δ M a f).attempts ≤ f := by
  intro f
  induction f with
  | zero => intro a; simp [retryGo]
  | succ n ih =>
      intro a
      cases hop : op a with
      | ok v => simp [retryGo, hop]
      | error e =>
          cases hc : (a == M - 1) with
          | true => simp [retryGo, hop, hc]
          | false =>
              simp only [retryGo, hop, hc, Bool.false_eq_true, if_false]
              have := ih (a + 1)
              omega

theorem retryGo_attempts_pos (op : Nat → Except PyExc Value) (δ : ℚ) (M : Nat) :
    ∀ (f a : Nat), 0 < f → 1 ≤ (retryGo op δ M a f).attempts := by
  intro f a hf
  match f, hf with
  | n + 1, _ =>
      cases hop : op a with
      | ok v => simp [retryGo, hop]
      | error e =>
          cases hc : (a == M - 1) with
          | true => simp [retryGo, hop, hc]
          | false => simp [retryGo, hop, hc]

theorem retryGo_sleeps (op : Nat → Except PyExc Value) (δ : ℚ) (M : Nat) :
    ∀ (f a : Nat), a + f = M →
    (retryGo op δ M a f).sleeps
      = (List.range ((retryGo op δ M a f).attempts - 1)).map
          (fun i => δ * 2 ^ (a + i)) := by
  intro f
  induction f with
  | zero => intro a h; simp [retryGo]
  | succ n ih =>
      intro a h
      cases hop : op a with
      | ok v => simp [retryGo, hop]
      | error e =>
          cases hc : (a == M - 1) with
          | true => simp [retryGo, hop, hc]
          | false =>
              have hne : a ≠ M - 1 := by
                intro heq
                rw [heq] at hc
                simp at hc
              have hn : 0 < n := by omega
              have hrest := ih (a + 1) (by omega)
              have hpos := retryGo_attempts_pos op δ M n (a + 1) hn
              simp only [retryGo, hop, hc, Bool.false_eq_true, if_false]
              rw [hrest]
              obtain ⟨k, hk⟩ : ∃ k, (retryGo op δ M (a + 1) n).attempts = k + 1 :=
                ⟨(retryGo op δ M (a + 1) n).attempts - 1, by omega⟩
              rw [hk]
              simp only [Nat.add_sub_cancel, List.range_succ_eq_map,
                List.map_cons, List.map_map, Nat.add_zero]
              congr 1
              apply List.map_congr_left
              intro i _
              simp only [Function.comp_apply]
              have hax : a + 1 + i = a + Nat.succ i := by omega
              rw [hax]

theorem retryGo_first_success (op : Nat → Except PyExc Value) (δ : ℚ)
    (M : Nat) :
    ∀ (f a k : Nat) (v : Value), a + f = M → a ≤ k → k < M →
    op k = .ok v →
    (∀ j, a ≤ j → j < k → ∃ e, op j = .error e) →
    (retryGo op δ M a f).result = .ok v ∧
    (retryGo op δ M a f).attempts = k + 1 - a := by
  intro f
  induction f with
  | zero =>
      intro a k v hM hak hkM hok hfail
      exfalso
      omega
  | succ n ih =>
      intro a k v hM hak hkM hok hfail
      by_cases hek : a = k
      · subst hek
        refine ⟨by simp [retryGo, hok], by simp [retryGo, hok]⟩
      · have hlt : a < k := lt_of_le_of_ne hak hek
        obtain ⟨e, he⟩ := hfail a le_rfl hlt
        have hne : (a == M - 1) = false := by
          rw [beq_eq_false_iff_ne]
          omega
        have hrest := ih (a + 1) k v (by omega) (by omega) hkM hok
          (fun j h1 h2 => hfail j (by omega) h2)
        simp only [retryGo, he, hne, Bool.false_eq_true, if_false]
        refine ⟨hrest.1, ?_⟩
        rw [hrest.2]
        omega

theorem retryGo_all_fail (op : Nat → Except PyExc Value) (δ : ℚ) (M : Nat)
    (e : PyExc) :
    ∀ (f a : Nat), a + f = M → 0 < f →
    (∀ j, a ≤ j → j < M → ∃ e2, op j = .error e2) →
    op (M - 1) = .error e →
    (retryGo op δ M a f).result = .error e := by
  intro f
  induction f with
  | zero =>
      intro a hM hpos _ _
      exact absurd hpos (by omega)
  | succ n ih =>
      intro a hM hpos hfail hlast
      by_cases hek : a = M - 1
      · have hop : op a = .error e := by rw [hek]; exact hlast
        have hc : (a == M - 1) = true := by
          rw [beq_iff_eq]
          exact hek
        simp [retryGo, hop, hc]
      · obtain ⟨e2, he2⟩ := hfail a le_rfl (by omega)
        have hne : (a == M - 1) = false := by
          rw [beq_eq_false_iff_ne]
          exact hek
        have hn : 0 < n := by omega
        have hrest := ih (a + 1) (by omega) hn
          (fun j h1 h2 => hfail j (by omega) h2) hlast
        simp [retryGo, he2, hne, hrest]

/-- C7: `retry_operation` invokes the wrapped operation at most `max_retries`
times (default 3), sleeps `delay * 2 ^ attempt` between consecutive attempts
(so with the default one-second base delay: 1s, 2s, ...), returns the first
successful result without further attempts, and when the final attempt fails
re-raises that attempt's original exception unchanged. -/
theorem C7_thm (operation : Nat → Except PyExc Value) (max_retries : Nat)
    (delay : ℚ) :
    (retry_operation operation max_retries delay).attempts ≤ max_retries ∧
    (retry_operation operation max_retries delay).sleeps
      = (List.range
          ((retry_operation operation max_retries delay).attempts - 1)).map
          (fun i => delay * 2 ^ i) ∧
    (∀ k v, k < max_retries → operation k = .ok v →
       (∀ j, j < k → ∃ e, operation j = .error e) →
       (retry_operation operation max_retries delay).result = .ok v ∧
       (retry_operation operation max_retries delay).attempts = k + 1) ∧
    (∀ e, 0 < max_retries →
       (∀ j, j < max_retries → ∃ e2, operation j = .error e2) →
       operation (max_retries - 1) = .error e →
       (retry_operation operation max_retries delay).result = .error e) := by
  refine ⟨retryGo_attempts_le operation delay max_retries max_retries 0,
    ?_, ?_, ?_⟩
  · have h := retryGo_sleeps operation delay max_retries max_retries 0
      (by omega)
    simpa using h
  · intro k v hk hok hfail
    have h := retryGo_first_success operation delay max_retries max_retries
      0 k v (by omega) (by omega) hk hok (fun j _ h2 => hfail j h2)
    simpa using h
  · intro e hM hfail hlast
    exact retryGo_all_fail operation delay max_retries e max_retries 0
      (by omega) hM (fun j _ h2 => hfail j h2) hlast

/-- Witness for C7: an operation failing on its first two invocations and
succeeding on the third, under the default three attempts: the success is
returned and exactly three invocations happen. -/
theorem C7_witness :
    (2 < 3 ∧ ∀ j, j < 2 → ∃ e, opC7 j = .error e) ∧
    (retry_operation opC7 3 1).result = .ok (.str "done") ∧
    (retry_operation opC7 3 1).attempts = 3 := by
  have hfail : ∀ j, j < 2 → ∃ e, opC7 j = .error e := by
    intro j hj
    interval_cases j <;> exact ⟨.other "transient failure", rfl⟩
  have h := (C7_thm opC7 3 1).2.2.1 2 (.str "done") (by omega) rfl hfail
  exact ⟨⟨by omega, hfail⟩, h.1, h.2⟩
